import Mathlib

/-!
Verification model of the item-catalog backend in `python/main.py`.

The file shallowly embeds the program: uploaded files and file contents are
byte strings (`List Nat`, each element `< 256`), the process filesystem is an
association list from paths (byte strings) to contents, the SQLite `items`
table is a list of 4-tuples `(id, name, category, image)` in insertion order,
and each HTTP handler becomes a pure function from its inputs and the ambient
state to a response value.
-/

set_option autoImplicit false

namespace Mercari

/-- Byte strings: lists of byte values. -/
abbrev Bytes := List Nat

/-- A filesystem for byte-string paths (the working directory of the server
process): newest writes are at the front, lookup returns the first match,
mirroring `open(path)` reading the current contents of `path`. -/
abbrev FS := List (Bytes × Bytes)

/-- Reading a file: the contents at the first matching path, `none` when the
`open` call raises `FileNotFoundError`. -/
def fsLookup (fs : FS) (path : Bytes) : Option Bytes :=
  match fs with
  | [] => none
  | entry :: rest => if entry.1 = path then some entry.2 else fsLookup rest path

/-- Writing a file (`open(path, "wb"); f.write(data)`): the new contents
shadow any previous file at the same path. -/
def fsWrite (fs : FS) (path : Bytes) (data : Bytes) : FS :=
  (path, data) :: fs

/-- Encoding of an ASCII string as the byte string of its code points, used
for paths the program builds from Python string literals. -/
def strBytes (s : String) : Bytes :=
  s.toList.map Char.toNat

/-! ### SHA-256 (`hashlib.sha256(...).hexdigest()`), per FIPS 180-4 -/

/-- 32-bit right rotation on a word value below `2 ^ 32`. -/
def rotr32 (x n : Nat) : Nat :=
  (x / 2 ^ n + x % 2 ^ n * 2 ^ (32 - n)) % 2 ^ 32

/-- Bitwise complement within 32 bits. -/
def not32 (x : Nat) : Nat := x ^^^ (2 ^ 32 - 1)

/-- SHA-256 big sigma-0. -/
def bSig0 (x : Nat) : Nat := rotr32 x 2 ^^^ rotr32 x 13 ^^^ rotr32 x 22

/-- SHA-256 big sigma-1. -/
def bSig1 (x : Nat) : Nat := rotr32 x 6 ^^^ rotr32 x 11 ^^^ rotr32 x 25

/-- SHA-256 small sigma-0. -/
def sSig0 (x : Nat) : Nat := rotr32 x 7 ^^^ rotr32 x 18 ^^^ x / 2 ^ 3

/-- SHA-256 small sigma-1. -/
def sSig1 (x : Nat) : Nat := rotr32 x 17 ^^^ rotr32 x 19 ^^^ x / 2 ^ 10

/-- SHA-256 choice function. -/
def ch (x y z : Nat) : Nat := (x &&& y) ^^^ (not32 x &&& z)

/-- SHA-256 majority function. -/
def maj (x y z : Nat) : Nat := (x &&& y) ^^^ (x &&& z) ^^^ (y &&& z)

/-- The 64 SHA-256 round constants (FIPS 180-4 section 4.2.2, here written in
decimal). -/
def K256 : List Nat :=
  [1116352408, 1899447441, 3049323471, 3921009573, 961987163,
   1508970993, 2453635748, 2870763221, 3624381080, 310598401,
   607225278, 1426881987, 1925078388, 2162078206, 2614888103,
   3248222580, 3835390401, 4022224774, 264347078, 604807628,
   770255983, 1249150122, 1555081692, 1996064986, 2554220882,
   2821834349, 2952996808, 3210313671, 3336571891, 3584528711,
   113926993, 338241895, 666307205, 773529912, 1294757372,
   1396182291, 1695183700, 1986661051, 2177026350, 2456956037,
   2730485921, 2820302411, 3259730800, 3345764771, 3516065817,
   3600352804, 4094571909, 275423344, 430227734, 506948616,
   659060556, 883997877, 958139571, 1322822218, 1537002063,
   1747873779, 1955562222, 2024104815, 2227730452, 2361852424,
   2428436474, 2756734187, 3204031479, 3329325298]

/-- The initial SHA-256 hash state (FIPS 180-4 section 5.3.3, in decimal). -/
def H256 : List Nat :=
  [1779033703, 3144134277, 1013904242, 2773480762,
   1359893119, 2600822924, 528734635, 1541459225]

/-- Big-endian byte decomposition of a value into `n` bytes. -/
def toBytesBE : Nat → Nat → List Nat
  | 0, _ => []
  | n + 1, v => toBytesBE n (v / 256) ++ [v % 256]

/-- A big-endian word from a list of bytes. -/
def bytesToWord (bs : List Nat) : Nat :=
  bs.foldl (fun acc b => acc * 256 + b) 0

/-- Fueled chunking, splitting a list into consecutive pieces of size `n`. -/
def chunksAux {α : Type} (n : Nat) : Nat → List α → List (List α)
  | 0, _ => []
  | _, [] => []
  | fuel + 1, l => l.take n :: chunksAux n fuel (l.drop n)

/-- Splits a list into consecutive pieces of size `n`. -/
def chunks {α : Type} (n : Nat) (l : List α) : List (List α) :=
  chunksAux n l.length l

/-- Extends 16 message-schedule words to the full 64. -/
def extendSchedule (w0 : List Nat) : List Nat :=
  (List.range 48).foldl
    (fun w _ =>
      let g := fun (k : Nat) => w.getD (w.length - k) 0
      w ++ [(sSig1 (g 2) + g 7 + sSig0 (g 15) + g 16) % 2 ^ 32])
    w0

/-- One SHA-256 compression round on the 8-word working state. -/
def roundStep (st : List Nat) (kw : Nat × Nat) : List Nat :=
  match st with
  | [a, b, c, d, e, f, g, h] =>
    let t1 := (h + bSig1 e + ch e f g + kw.1 + kw.2) % 2 ^ 32
    let t2 := (bSig0 a + maj a b c) % 2 ^ 32
    [(t1 + t2) % 2 ^ 32, a, b, c, (d + t1) % 2 ^ 32, e, f, g]
  | _ => st

/-- Compression of one 64-byte block into the running hash state. -/
def compressBlock (h0 : List Nat) (block : List Nat) : List Nat :=
  let w := extendSchedule ((chunks 4 block).map bytesToWord)
  let st := (K256.zip w).foldl roundStep h0
  (h0.zip st).map (fun p => (p.1 + p.2) % 2 ^ 32)

/-- The SHA-256 digest (32 bytes) of a byte string: pad to a multiple of 64
bytes with `0x80`, zeros and the 64-bit big-endian bit length, then compress
each block in order. -/
def sha256 (msg : Bytes) : List Nat :=
  let len := msg.length
  let k := (64 + 56 - (len + 1) % 64) % 64
  let padded := msg ++ 0x80 :: List.replicate k 0 ++ toBytesBE 8 (8 * len)
  (((chunks 64 padded).foldl compressBlock H256).map (toBytesBE 4)).flatten

/-- A lowercase hexadecimal digit. -/
def hexDigit (n : Nat) : Char :=
  if n < 10 then Char.ofNat (48 + n) else Char.ofNat (87 + n)

/-- `hashlib.sha256(data).hexdigest()`: the lowercase hex encoding of the
32-byte SHA-256 digest. -/
def sha256hex (msg : Bytes) : String :=
  String.mk ((sha256 msg).foldr (fun b acc => hexDigit (b / 16) :: hexDigit (b % 16) :: acc) [])

/-! ### Database model -/

/-- A row of the `items` table: `(id int, name string, category string,
image string)`. -/
abbrev Row := Int × String × String × String

/-- The `items` table in rowid (= insertion) order; `SELECT * FROM items`
returns exactly this list. -/
abbrev DB := List Row

/-- An `OrderedDict` with string values, as an insertion-ordered association
list. -/
abbrev Obj := List (String × String)

/-- The dictionary `db_toList` builds for one row: `row[0]` (the id) is
commented out in the source; `name`, `category`, `image` are inserted in this
order from `row[1]`, `row[2]`, `row[3]`. -/
def rowDict (row : Row) : Obj :=
  [("name", row.2.1), ("category", row.2.2.1), ("image", row.2.2.2)]

/-- The loop body of `db_toList`: walk the rows, appending each dictionary to
the accumulated `objects_list`. -/
def db_toList_loop : List Row → List Obj → List Obj
  | [], objects_list => objects_list
  | row :: rest, objects_list => db_toList_loop rest (objects_list ++ [rowDict row])

/-- `db_toList(items)`: start from an empty `objects_list` and run the loop. -/
def db_toList (items : List Row) : List Obj :=
  db_toList_loop items []

/-- `add_sql(id, name, category, image_name)`: `INSERT INTO items` appends
one row to the table. -/
def add_sql (id : Int) (name category image_name : String) (db : DB) : DB :=
  db ++ [(id, name, category, image_name)]

/-! ### SQLite `LIKE` semantics

`search_item` runs `SELECT * FROM items WHERE name LIKE ?` with the raw
keyword as the pattern. SQLite `LIKE` (no `ESCAPE`, default
`case_sensitive_like` off) treats `%` as matching any sequence of characters,
`_` as matching exactly one character, and compares other characters
case-insensitively on the ASCII range. -/

/-- SQLite's ASCII case folding used by `LIKE`. -/
def likeFold (c : Char) : Char :=
  if 'A' ≤ c && c ≤ 'Z' then Char.ofNat (c.toNat + 32) else c

/-- Fueled `LIKE` pattern matching; each recursive call shrinks
`pattern.length + s.length`, so fuel ` > pattern.length + s.length` is enough. -/
def likeAux : Nat → List Char → List Char → Bool
  | 0, _, _ => false
  | _ + 1, [], s => s.isEmpty
  | fuel + 1, c :: p, s =>
    if c = '%' then
      likeAux fuel p s ||
        (match s with
         | [] => false
         | _ :: s2 => likeAux fuel (c :: p) s2)
    else
      match s with
      | [] => false
      | d :: s2 =>
        if c = '_' then likeAux fuel p s2
        else likeFold c == likeFold d && likeAux fuel p s2

/-- `s LIKE pattern` in SQLite. -/
def likeMatch (pattern s : List Char) : Bool :=
  likeAux (pattern.length + s.length + 1) pattern s

/-- `name LIKE ?` with the bound keyword parameter: a missing keyword binds
SQL `NULL`, and `name LIKE NULL` is `NULL`, which `WHERE` treats as false. -/
def sqlLike (keyword : Option String) (name : String) : Bool :=
  match keyword with
  | none => false
  | some k => likeMatch k.toList name.toList

/-- Whether a keyword contains a `LIKE` wildcard character. -/
def hasWildcard (k : String) : Bool :=
  k.toList.any (fun c => c == '%' || c == '_')

/-! ### HTTP endpoints -/

/-- The JSON body `{"items": ...}` returned by `GET /items` and
`GET /search`. -/
structure ItemsResponse where
  items : List Obj
deriving DecidableEq

/-- `show_item` (`GET /items`): `SELECT * FROM items`, mapped through
`db_toList`. -/
def show_item (db : DB) : ItemsResponse :=
  { items := db_toList db }

/-- `search_item` (`GET /search?keyword=`): `SELECT * FROM items WHERE name
LIKE ?`, mapped through `db_toList`; `keyword` defaults to `None`. -/
def search_item (db : DB) (keyword : Option String) : ItemsResponse :=
  { items := db_toList (db.filter (fun row => sqlLike keyword row.2.1)) }

/-- Outcome of a `POST /items` request, together with the state it leaves
behind. `hashError` is the unhandled exception raised by
`image_toHash(image)`: the uploaded bytes are passed to `open()` as a path,
and no file write or insert happens. `insertError` is a database failure in
`add_sql` after the image file was already written. -/
inductive AddResult where
  | hashError
  | insertError (fs : FS) (db : DB)
  | ok (fs : FS) (db : DB) (image_name : String) (message : String)
deriving DecidableEq

/-- `add_item` (`POST /items`) with form fields `name`, `category` and
uploaded bytes `image`, under filesystem `fs` and table `db`. `image_toHash`
opens the path given by the `image` bytes and hashes the contents of that
file; the derived name is `<digest>.jpg`, the uploaded bytes are written to
`images/<digest>.jpg`, then a row with the random `id` is inserted.
`insertOk` models whether the database insert succeeds. -/
def add_item (fs : FS) (db : DB) (name category : String) (image : Bytes)
    (id : Int) (insertOk : Bool) : AddResult :=
  match fsLookup fs image with
  | none => AddResult.hashError
  | some fileContents =>
    let image_name := sha256hex fileContents ++ ".jpg"
    let file_location := "images/" ++ image_name
    let fs2 := fsWrite fs (strBytes file_location) image
    if insertOk then
      AddResult.ok fs2 (add_sql id name category image_name db) image_name
        ("item received: " ++ name)
    else
      AddResult.insertError fs2 db

/-- Python `str.endswith`. -/
def pyEndsWith (s suffixStr : String) : Bool :=
  suffixStr.toList.isSuffixOf s.toList

/-- The image directory served by `GET /image/{items_image}`, as filename to
contents. -/
abbrev ImageDir := List (String × Bytes)

/-- Existence and contents of a file in the image directory. -/
def fileLookup (dir : ImageDir) (name : String) : Option Bytes :=
  match dir with
  | [] => none
  | entry :: rest => if entry.1 = name then some entry.2 else fileLookup rest name

/-- An HTTP response from `get_image`: an `HTTPException` or a 200
`FileResponse` whose body is the file bytes. -/
inductive HttpResult where
  | error (status : Nat) (detail : String)
  | ok (body : Bytes)
deriving DecidableEq

/-- `get_image` (`GET /image/{items_image}`): reject names not ending in
`.jpg` with 400; fall back to `default.jpg` when the file does not exist;
serve the resolved file (`none` models `FileResponse` failing because even
the fallback file is absent). -/
def get_image (dir : ImageDir) (items_image : String) : Option HttpResult :=
  if pyEndsWith items_image ".jpg" = false then
    some (HttpResult.error 400 "Image path does not end with .jpg")
  else
    match fileLookup dir items_image with
    | some contents => some (HttpResult.ok contents)
    | none => (fileLookup dir "default.jpg").map HttpResult.ok

/-! ### Module-level route registration

`main.py` creates a `FastAPI()` instance, registers `POST /files/` and
`POST /uploadfile/` on it, then rebinds the name `app` to a fresh
`FastAPI()` instance and registers the remaining routes on that one; only
the final binding is served. The stacked decorators
`@app.get("/item/{items_id}")` and `@app.get("/image/{items_image}")` both
apply to `get_image`, and registration happens when each decorator is
applied (innermost first), so `/image/...` is registered before
`/item/...`. -/

/-- A declared route. -/
inductive Route where
  | getR (path : String)
  | postR (path : String)
deriving DecidableEq

/-- A top-level statement that matters to routing: rebinding `app` to a
fresh application instance, or registering a route on the instance `app`
currently names. -/
inductive Stmt where
  | assignFreshApp
  | register (r : Route)

/-- Runs the module top level: `current` is the instance `app` names,
`next` the next fresh instance id, `reg` the registrations so far. -/
def runModule : List Stmt → Nat → Nat → List (Nat × Route) → Nat × List (Nat × Route)
  | [], current, _, reg => (current, reg)
  | Stmt.assignFreshApp :: rest, _, next, reg => runModule rest next (next + 1) reg
  | Stmt.register r :: rest, current, next, reg =>
    runModule rest current next (reg ++ [(current, r)])

/-- The routing-relevant top level of `main.py`, in execution order. -/
def main_module : List Stmt :=
  [Stmt.assignFreshApp,
   Stmt.register (Route.postR "/files/"),
   Stmt.register (Route.postR "/uploadfile/"),
   Stmt.assignFreshApp,
   Stmt.register (Route.getR "/"),
   Stmt.register (Route.getR "/items"),
   Stmt.register (Route.postR "/items"),
   Stmt.register (Route.getR "/search"),
   Stmt.register (Route.getR "/image/{items_image}"),
   Stmt.register (Route.getR "/item/{items_id}")]

/-- All registrations made while the module loads. -/
def allRegistrations : List (Nat × Route) :=
  (runModule main_module 0 0 []).2

/-- The routes served: those registered on the instance `app` names once the
module has loaded, i.e. on the application handed to the server. -/
def servedRoutes : List Route :=
  let res := runModule main_module 0 0 []
  (res.2.filter (fun e => e.1 == res.1)).map (fun e => e.2)

/-! ### Helper lemmas -/

/-- The `db_toList` loop appends the dictionaries of the remaining rows, in
order, to the accumulated list. -/
theorem db_toList_loop_eq (items : List Row) :
    ∀ acc : List Obj, db_toList_loop items acc = acc ++ items.map rowDict := by
  induction items with
  | nil => intro acc; simp [db_toList_loop]
  | cons row rest ih => intro acc; simp [db_toList_loop, ih]

/-- `db_toList` is the elementwise dictionary translation of the rows. -/
theorem db_toList_eq_map (items : List Row) : db_toList items = items.map rowDict := by
  simp [db_toList, db_toList_loop_eq]

/-- Character-list `==` on two cons cells. -/
theorem charList_beq_cons (a b : Char) (l m : List Char) :
    ((a :: l : List Char) == (b :: m)) = (a == b && l == m) := rfl

/-- Character-list `==` of nil against cons. -/
theorem charList_beq_nil_cons (b : Char) (m : List Char) :
    (([] : List Char) == (b :: m)) = false := rfl

/-- Character-list `==` of cons against nil. -/
theorem charList_beq_cons_nil (a : Char) (l : List Char) :
    ((a :: l : List Char) == ([] : List Char)) = false := rfl

/-- On wildcard-free patterns, `LIKE` is equality of the case-folded
character lists. -/
theorem likeAux_noWildcard (fuel : Nat) :
    ∀ (p s : List Char), p.length + s.length < fuel →
      (∀ c ∈ p, c ≠ '%' ∧ c ≠ '_') →
      likeAux fuel p s = (p.map likeFold == s.map likeFold) := by
  induction fuel with
  | zero => intro p s hlt _; exact absurd hlt (by omega)
  | succ n ih =>
    intro p s hlt hw
    cases p with
    | nil =>
      cases s with
      | nil => simp [likeAux]
      | cons d s2 => simp [likeAux, charList_beq_nil_cons]
    | cons c p2 =>
      have hc := hw c (List.mem_cons_self c p2)
      cases s with
      | nil =>
        simp only [likeAux, List.map]
        rw [if_neg hc.1]
        simp [charList_beq_cons_nil]
      | cons d s2 =>
        have ih2 := ih p2 s2 (by simp at hlt; omega)
          (fun x hx => hw x (List.mem_cons_of_mem c hx))
        simp only [likeAux, List.map]
        rw [if_neg hc.1, if_neg hc.2, ih2, charList_beq_cons]

/-- Filtering and projecting through functions of the non-id columns is
invariant under changing the id column. -/
theorem map_snd_filter_map (q : String × String × String → Bool)
    (g : String × String × String → Obj) (db1 : DB) :
    ∀ db2 : DB, db1.map (fun r => r.2) = db2.map (fun r => r.2) →
      (db1.filter (fun r => q r.2)).map (fun r => g r.2) =
        (db2.filter (fun r => q r.2)).map (fun r => g r.2) := by
  induction db1 with
  | nil =>
    intro db2 h
    cases db2 with
    | nil => rfl
    | cons b l2 => simp at h
  | cons a l1 ih =>
    intro db2 h
    cases db2 with
    | nil => simp at h
    | cons b l2 =>
      simp only [List.map] at h
      have h1 : a.2 = b.2 := (List.cons.injEq _ _ _ _ ▸ h).1
      have h2 : l1.map (fun r => r.2) = l2.map (fun r => r.2) :=
        (List.cons.injEq _ _ _ _ ▸ h).2
      cases hqb : q b.2 with
      | false => simp [List.filter_cons, h1, hqb, ih l2 h2]
      | true => simp [List.filter_cons, h1, hqb, ih l2 h2]

/-! ### Claims -/

set_option maxRecDepth 4000 in
/-- C1: the claim says a successful `POST /items` with uploaded bytes `b`
stores an image filename equal to `sha256hex(b) + ".jpg"`. The code instead
passes the uploaded bytes to `open()` as a filesystem path: a request can
only succeed when a file with that name exists, the stored filename is the
digest of that file's contents (here `[103]`, while the upload is `[102]`,
and the two derived names differ), and an ordinary upload such as JPEG
header bytes raises an unhandled `FileNotFoundError`. -/
theorem c1_image_hash_uses_bytes_as_path :
    add_item [([102], [103])] [] "pen" "fruit" [102] 7 true =
      AddResult.ok
        (fsWrite [([102], [103])] (strBytes ("images/" ++ (sha256hex [103] ++ ".jpg"))) [102])
        [(7, "pen", "fruit", sha256hex [103] ++ ".jpg")]
        (sha256hex [103] ++ ".jpg")
        ("item received: " ++ "pen") ∧
    sha256hex [103] ++ ".jpg" ≠ sha256hex [102] ++ ".jpg" ∧
    add_item [] [] "pen" "fruit" [255, 216, 255, 224] 1 true = AddResult.hashError := by
  refine ⟨rfl, ?_, rfl⟩
  decide

/-- C2 counterexample: with the table holding one row named `"ABC"`,
`GET /search?keyword=abc` returns that row even though `"ABC"` is not an
exact match of `"abc"` — SQLite `LIKE` without wildcards is ASCII
case-insensitive, not equality. -/
theorem c2_search_exact_match_counterexample :
    (search_item [(1, "ABC", "cat", "img.jpg")] (some "abc")).items =
      [[("name", "ABC"), ("category", "cat"), ("image", "img.jpg")]] ∧
    "ABC" ≠ "abc" := by
  constructor
  · decide
  · decide

/-- C2 (amended): for every keyword without `LIKE` wildcard characters,
`GET /search?keyword=k` returns exactly those rows whose name equals `k` up
to ASCII case folding, mapped through `db_toList`. -/
theorem c2_search_no_wildcard_case_insensitive (db : DB) (k : String)
    (h : hasWildcard k = false) :
    search_item db (some k) =
      { items := db_toList (db.filter
          (fun row => k.toList.map likeFold == row.2.1.toList.map likeFold)) } := by
  unfold search_item
  congr 2
  apply List.filter_congr
  intro row _
  have hw : ∀ c ∈ k.toList, c ≠ '%' ∧ c ≠ '_' := by
    intro c hcmem
    simp [hasWildcard, List.any_eq_true] at h
    exact h c hcmem
  have := likeAux_noWildcard (k.toList.length + row.2.1.toList.length + 1)
    k.toList row.2.1.toList (by omega) hw
  simpa [sqlLike, likeMatch] using this

/-- Witness for the amended C2 at keyword `"abc"` over a one-row table whose
name is `"ABC"`. -/
theorem c2_search_no_wildcard_witness :
    hasWildcard "abc" = false ∧
    search_item [(1, "ABC", "cat", "img.jpg")] (some "abc") =
      { items := db_toList ([((1 : Int), "ABC", "cat", "img.jpg")].filter
          (fun row => "abc".toList.map likeFold == row.2.1.toList.map likeFold)) } :=
  ⟨by decide, c2_search_no_wildcard_case_insensitive [(1, "ABC", "cat", "img.jpg")] "abc" (by decide)⟩

/-- C3: any image name not ending in `.jpg` gets HTTP 400 with the
descriptive detail string, whatever the image directory holds. -/
theorem c3_get_image_bad_suffix (dir : ImageDir) (f : String)
    (h : pyEndsWith f ".jpg" = false) :
    get_image dir f = some (HttpResult.error 400 "Image path does not end with .jpg") := by
  simp [get_image, h]

/-- Witness for C3 at `x.png`, with a file of that very name present in the
image directory. -/
theorem c3_get_image_bad_suffix_witness :
    pyEndsWith "x.png" ".jpg" = false ∧
    get_image [("x.png", [9])] "x.png" =
      some (HttpResult.error 400 "Image path does not end with .jpg") :=
  ⟨by decide, c3_get_image_bad_suffix [("x.png", [9])] "x.png" (by decide)⟩

/-- C4: a `.jpg` name that does not exist in the image directory is served
with status 200 and the bytes of `default.jpg`, not an error. -/
theorem c4_get_image_missing_serves_default (dir : ImageDir) (f : String) (d : Bytes)
    (h1 : pyEndsWith f ".jpg" = true) (h2 : fileLookup dir f = none)
    (h3 : fileLookup dir "default.jpg" = some d) :
    get_image dir f = some (HttpResult.ok d) := by
  simp [get_image, h1, h2, h3]

/-- Witness for C4 at `missing.jpg` with only the placeholder present. -/
theorem c4_get_image_missing_serves_default_witness :
    pyEndsWith "missing.jpg" ".jpg" = true ∧
    fileLookup [("default.jpg", [1, 2, 3])] "missing.jpg" = none ∧
    fileLookup [("default.jpg", [1, 2, 3])] "default.jpg" = some [1, 2, 3] ∧
    get_image [("default.jpg", [1, 2, 3])] "missing.jpg" = some (HttpResult.ok [1, 2, 3]) :=
  ⟨by decide, by decide, by decide,
    c4_get_image_missing_serves_default [("default.jpg", [1, 2, 3])] "missing.jpg" [1, 2, 3]
      (by decide) (by decide) (by decide)⟩

/-- C5: the claim says uploading the same bytes twice derives the same
filename both times and inserts two rows. Because `add_item` passes the
uploaded bytes to `open()` as a path, both requests for ordinary upload
bytes (here a JPEG header) raise before deriving any filename, writing any
file or inserting any row. -/
theorem c5_duplicate_upload_requests_error :
    add_item [] [] "pen" "fruit" [255, 216, 255, 224] 1 true = AddResult.hashError ∧
    add_item [] [] "pen" "fruit" [255, 216, 255, 224] 2 true = AddResult.hashError :=
  ⟨rfl, rfl⟩

/-- C6: `GET /search` without a keyword binds SQL `NULL` as the `LIKE`
pattern, which matches no row, so the response is `{"items": []}` for every
table state. -/
theorem c6_search_missing_keyword_empty (db : DB) :
    search_item db none = { items := [] } := by
  simp [search_item, sqlLike, db_toList, db_toList_loop]

/-- C7: whenever the hash step succeeds (so the insert is attempted at all),
the uploaded bytes are already written to `images/<digest>.jpg` in the state
the insert runs against; when the insert fails, the resulting state still
contains the written file and the table is unchanged — no cleanup, no
atomicity. -/
theorem c7_image_write_precedes_insert (fs : FS) (db : DB) (name category : String)
    (image contents : Bytes) (id : Int) (h : fsLookup fs image = some contents) :
    add_item fs db name category image id false =
      AddResult.insertError
        (fsWrite fs (strBytes ("images/" ++ (sha256hex contents ++ ".jpg"))) image) db ∧
    fsLookup (fsWrite fs (strBytes ("images/" ++ (sha256hex contents ++ ".jpg"))) image)
      (strBytes ("images/" ++ (sha256hex contents ++ ".jpg"))) = some image ∧
    add_item fs db name category image id true =
      AddResult.ok
        (fsWrite fs (strBytes ("images/" ++ (sha256hex contents ++ ".jpg"))) image)
        (add_sql id name category (sha256hex contents ++ ".jpg") db)
        (sha256hex contents ++ ".jpg")
        ("item received: " ++ name) := by
  refine ⟨?_, ?_, ?_⟩
  · simp [add_item, h]
  · simp [fsWrite, fsLookup]
  · simp [add_item, h]

/-- Witness for C7: the working directory holds a file named by byte `97`
with contents `[98]`, and that byte string is uploaded. -/
theorem c7_image_write_precedes_insert_witness :
    fsLookup [([97], [98])] [97] = some [98] ∧
    (add_item [([97], [98])] [] "pen" "fruit" [97] 5 false =
      AddResult.insertError
        (fsWrite [([97], [98])] (strBytes ("images/" ++ (sha256hex [98] ++ ".jpg"))) [97]) [] ∧
    fsLookup (fsWrite [([97], [98])] (strBytes ("images/" ++ (sha256hex [98] ++ ".jpg"))) [97])
      (strBytes ("images/" ++ (sha256hex [98] ++ ".jpg"))) = some [97] ∧
    add_item [([97], [98])] [] "pen" "fruit" [97] 5 true =
      AddResult.ok
        (fsWrite [([97], [98])] (strBytes ("images/" ++ (sha256hex [98] ++ ".jpg"))) [97])
        (add_sql 5 "pen" "fruit" (sha256hex [98] ++ ".jpg") [])
        (sha256hex [98] ++ ".jpg")
        ("item received: " ++ "pen")) :=
  ⟨by decide, c7_image_write_precedes_insert [([97], [98])] [] "pen" "fruit" [97] [98] 5 (by decide)⟩

/-- C8: the row mapper keeps length and order and sends each row to the
ordered dictionary with exactly the keys `name`, `category`, `image` bound
to the row's 2nd, 3rd and 4th components; the id is dropped and nothing is
filtered. -/
theorem c8_db_toList_spec (rows : List Row) :
    db_toList rows =
      rows.map (fun row => [("name", row.2.1), ("category", row.2.2.1), ("image", row.2.2.2)]) ∧
    (db_toList rows).length = rows.length := by
  have h := db_toList_eq_map rows
  constructor
  · exact h
  · rw [h]; simp

/-- C9: only the routes registered after `app` is rebound to the second
`FastAPI()` instance are served — the six declared later in the file,
including `GET /item/{items_id}`, whose stacked decorator applies to
`get_image` — while `POST /files/` and `POST /uploadfile/`, though
registered on the first instance (id 0), are never served. -/
theorem c9_served_routes_after_rebinding :
    servedRoutes = [Route.getR "/", Route.getR "/items", Route.postR "/items",
      Route.getR "/search", Route.getR "/image/{items_image}", Route.getR "/item/{items_id}"] ∧
    List.Perm servedRoutes [Route.getR "/", Route.getR "/items", Route.postR "/items",
      Route.getR "/search", Route.getR "/item/{items_id}", Route.getR "/image/{items_image}"] ∧
    Route.postR "/files/" ∉ servedRoutes ∧
    Route.postR "/uploadfile/" ∉ servedRoutes ∧
    (0, Route.postR "/files/") ∈ allRegistrations ∧
    (0, Route.postR "/uploadfile/") ∈ allRegistrations := by
  refine ⟨by decide, by decide, by decide, by decide, by decide, by decide⟩

/-- C10: two table states that agree rowwise on `(name, category, image)`
and differ only in ids produce identical `GET /items` and `GET /search`
responses for every keyword (including a missing one). -/
theorem c10_responses_independent_of_ids (db1 db2 : DB) (kw : Option String)
    (h : db1.map (fun r => r.2) = db2.map (fun r => r.2)) :
    show_item db1 = show_item db2 ∧ search_item db1 kw = search_item db2 kw := by
  have hmap : ∀ db : DB, db.map rowDict =
      (db.map (fun r => r.2)).map
        (fun t => [("name", t.1), ("category", t.2.1), ("image", t.2.2)]) := by
    intro db
    rw [List.map_map]
    rfl
  constructor
  · unfold show_item
    congr 1
    rw [db_toList_eq_map, db_toList_eq_map, hmap, hmap, h]
  · unfold search_item
    congr 1
    rw [db_toList_eq_map, db_toList_eq_map]
    exact map_snd_filter_map (fun t => sqlLike kw t.1)
      (fun t => [("name", t.1), ("category", t.2.1), ("image", t.2.2)]) db1 db2 h

/-- Witness for C10: one-row tables with ids 1 and 2 and identical remaining
columns, searched with keyword `"a"`. -/
theorem c10_responses_independent_of_ids_witness :
    ([((1 : Int), "a", "b", "c")] : DB).map (fun r => r.2) =
      ([((2 : Int), "a", "b", "c")] : DB).map (fun r => r.2) ∧
    (show_item [(1, "a", "b", "c")] = show_item [(2, "a", "b", "c")] ∧
      search_item [(1, "a", "b", "c")] (some "a") = search_item [(2, "a", "b", "c")] (some "a")) :=
  ⟨rfl, c10_responses_independent_of_ids [(1, "a", "b", "c")] [(2, "a", "b", "c")] (some "a") rfl⟩

end Mercari
